import Mathlib

/-!
Verification of `pkg/skills/internal/skills/test-skill-multifile/helper.py`.

The script defines one pure function, `process_data`, and a `__main__`
guard.  The call `input_text.upper()` delegates to the host standard
library's Unicode uppercasing, so the embedding takes that operation as
an explicit function argument `upper : String → String`; concrete
examples instantiate it with `hostUpper` below, which agrees with
the host on the ASCII inputs used in the spec's examples.
-/

namespace Helper

/-- Embedding of `process_data` (helper.py lines 7-9):
`return f"Processed: {input_text.upper()}"`. -/
def process_data (upper : String → String) (input_text : String) : String :=
  "Processed: " ++ upper input_text

/-- The fixed usage message printed when no positional argument is given
(helper.py line 17). -/
def usageMessage : String := "Usage: python helper.py <input_text>"

/-- Embedding of the `__main__` block (helper.py lines 11-17).
`argv` is the full `sys.argv`, whose head is the script name.  The
result is the list of lines written to standard output (each line is
terminated with a newline by `print`) together with the process exit
status (the script never calls `sys.exit`, so CPython exits with 0 on
both branches). -/
def runMain (upper : String → String) (argv : List String) : List String × Nat :=
  if h : 1 < argv.length then
    ([process_data upper (argv.get ⟨1, h⟩)], 0)
  else
    ([usageMessage], 0)

/-- The text actually written to standard output: every printed line
followed by a newline character. -/
def stdoutText (lines : List String) : String :=
  String.join (lines.map (fun l => l ++ "\n"))

/-- Concrete stand-in for the host environment's `str.upper`, used to
instantiate `upper` in closed examples: character-wise uppercasing.  It
agrees with Python's `str.upper` on all ASCII inputs appearing in the
spec's examples. -/
def hostUpper (s : String) : String :=
  String.mk (s.data.map Char.toUpper)

/-- C1: for every text input `s` and every host uppercasing function,
`process_data` returns exactly the literal prefix "Processed: "
concatenated with the uppercased form of `s`. -/
theorem process_data_spec (upper : String → String) (s : String) :
    process_data upper s = "Processed: " ++ upper s := rfl

/-- C2: with at least one positional argument, the transformer is applied
to the first positional argument and its result is written to standard
output followed by a newline; in particular the single argument "hello"
prints "Processed: HELLO". -/
theorem runMain_with_arg (upper : String → String) (p a : String)
    (rest : List String) :
    runMain upper (p :: a :: rest) = ([process_data upper a], 0) ∧
    stdoutText (runMain hostUpper ["helper.py", "hello"]).1 =
      "Processed: HELLO\n" := by
  constructor
  · simp [runMain]
  · rfl

/-- C3: with zero positional arguments the fixed usage message is written
to standard output, and the transformer is not invoked: the output does
not depend on the uppercasing function at all. -/
theorem runMain_no_args (upper upper' : String → String)
    (argv : List String) (h : argv.length ≤ 1) :
    runMain upper argv = ([usageMessage], 0) ∧
    runMain upper argv = runMain upper' argv := by
  have hlt : ¬ 1 < argv.length := by omega
  constructor <;> simp [runMain, hlt]

/-- Witness for C3 at the concrete invocation `["helper.py"]`. -/
theorem runMain_no_args_witness :
    runMain hostUpper ["helper.py"] = ([usageMessage], 0) ∧
    runMain hostUpper ["helper.py"] = runMain id ["helper.py"] :=
  runMain_no_args hostUpper id ["helper.py"] (by decide)

/-- C4: the empty string is accepted with no precondition and maps to
exactly the prefix, given that the host uppercasing fixes the empty
string (as Python's `str.upper` does). -/
theorem process_data_empty (upper : String → String) (h : upper "" = "") :
    process_data upper "" = "Processed: " := by
  rw [process_data, h]
  rfl

/-- Witness for C4 with `hostUpper` as the host uppercasing. -/
theorem process_data_empty_witness :
    process_data hostUpper "" = "Processed: " :=
  process_data_empty hostUpper (by rfl)

/-- C5: `process_data` is total with no error branch: on every input it
returns the prefixed string, and a missing positional argument is
handled by printing the usage hint with exit status 0 rather than by
failing. -/
theorem process_data_total (upper : String → String) (s p : String) :
    process_data upper s = "Processed: " ++ upper s ∧
    runMain upper [p] = ([usageMessage], 0) ∧
    (runMain upper [p]).2 = 0 := by
  refine ⟨rfl, ?_, ?_⟩ <;> simp [runMain]

/-- C6: `process_data` is pure and deterministic: equal inputs give equal
outputs, and its meaning is a mathematical function of its arguments
alone (the embedding has no state to modify). -/
theorem process_data_pure (upper : String → String) (s t : String)
    (h : s = t) :
    process_data upper s = process_data upper t := by
  rw [h]

/-- Witness for C6 at a concrete pair of equal inputs. -/
theorem process_data_pure_witness :
    process_data hostUpper "abc" = process_data hostUpper "abc" :=
  process_data_pure hostUpper "abc" "abc" rfl

/-- C7: on every invocation path, with or without positional arguments,
the exit status is success (0). -/
theorem runMain_exit_success (upper : String → String)
    (argv : List String) :
    (runMain upper argv).2 = 0 := by
  rw [runMain]
  split <;> rfl

/-- C8: with two or more positional arguments only the first positional
argument (`sys.argv[1]`) is processed; the remaining arguments do not
affect the output. -/
theorem runMain_ignores_extra_args (upper : String → String)
    (p a : String) (rest rest' : List String) :
    runMain upper (p :: a :: rest) = runMain upper (p :: a :: rest') := by
  simp [runMain]

/-- C9: a single positional argument that is the empty string takes the
argument-present branch (presence is tested by argument count, not
content): the program prints "Processed: ", not the usage message. -/
theorem runMain_empty_string_arg (upper : String → String) (p : String)
    (h : upper "" = "") :
    runMain upper [p, ""] = (["Processed: "], 0) ∧
    runMain upper [p, ""] ≠ ([usageMessage], 0) := by
  have hrun : runMain upper [p, ""] = (["Processed: "], 0) := by
    simp [runMain, process_data, h]
  refine ⟨hrun, ?_⟩
  rw [hrun]
  decide

/-- Witness for C9 at the concrete invocation `["helper.py", ""]`. -/
theorem runMain_empty_string_arg_witness :
    runMain hostUpper ["helper.py", ""] = (["Processed: "], 0) ∧
    runMain hostUpper ["helper.py", ""] ≠ ([usageMessage], 0) :=
  runMain_empty_string_arg hostUpper "helper.py" (by rfl)

/-- C10: every invocation writes exactly one line to standard output:
either the transformed result or the usage message, never both and
never neither. -/
theorem runMain_one_line (upper : String → String) (argv : List String) :
    (runMain upper argv).1.length = 1 := by
  rw [runMain]
  split <;> rfl

end Helper
